import Mathlib

/-!
A verification development for the browsing-and-personalization subsystem of the
campus-marketplace repository.  The two stateful components are shallowly embedded:

* the Marketplace catalog view (`src/pages/Marketplace` equivalent): filter state,
  URL query-string codec, and the `fetchProducts` response handling;
* the wishlist context (`src/frontend/src/context/WishlistContext.js`):
  `fetchWishlist`, `addToWishlist`, `removeFromWishlist`, `isInWishlist`,
  `toggleWishlist`.

Network calls are modelled by passing the response outcome (`Except`/`Bool`) as an
explicit argument; each `await` boundary is a suspension point, and the states
committed between suspension points are recorded explicitly where a claim needs them.
React batches the `setState` calls of one synchronous continuation into a single
committed transition, so consecutive `setState`s with no `await` between them are
modelled as one state update.
-/

/-- A catalog item as held in component state; only the `id` field is inspected by
the code under study (`product.id`), the payload stands for the remaining fields. -/
structure Product where
  id : Nat
  name : String
deriving DecidableEq, Repr

/-! ## Wishlist context (`WishlistContext.js`) -/

namespace Wishlist

/-- The two `useState` cells of `WishlistProvider`: `wishlist` (array of product
records) and `wishlistIds` (a `Set` of ids). -/
structure WishlistState where
  wishlist : List Product
  wishlistIds : Finset Nat
deriving DecidableEq

/-- The empty wishlist state (initial `useState` values). -/
def emptyWishlist : WishlistState := { wishlist := [], wishlistIds := ∅ }

/-- A network call issued by the wishlist context: POST `/wishlist/:id`,
DELETE `/wishlist/:id`, or GET `/wishlist`. -/
inductive RemoteCall where
  | addCall (productId : Nat)
  | removeCall (productId : Nat)
  | getCall
deriving DecidableEq, Repr

/-- An observable step of a wishlist operation: dispatch of a network call, or a
state commit between two suspension points. -/
inductive ToggleEvent where
  | remote (c : RemoteCall)
  | localCommit (s : WishlistState)
deriving DecidableEq

/-- Whether an event is the dispatch of a network call. -/
def ToggleEvent.isRemote : ToggleEvent → Bool
  | .remote _ => true
  | .localCommit _ => false

/-- `isInWishlist(productId)`: `wishlistIds.has(productId)`. -/
def isInWishlist (s : WishlistState) (productId : Nat) : Bool :=
  productId ∈ s.wishlistIds

/-- The settlement of the GET `/wishlist` response inside `fetchWishlist`: on
success both cells are replaced wholesale from the response (`setWishlist(data)`;
`setWishlistIds(new Set(data.map(p => p.id)))`, one synchronous continuation); on
failure the `catch` only logs, so the state is untouched. -/
def fetchWishlistSettle (s : WishlistState) (resp : Except Unit (List Product)) :
    WishlistState :=
  match resp with
  | .ok data => { wishlist := data, wishlistIds := (data.map Product.id).toFinset }
  | .error _ => s

/-- A complete run of `fetchWishlist`: with no token it synchronously empties both
cells and issues no network call; with a token it issues GET `/wishlist` and settles
per `fetchWishlistSettle`.  The JS function catches every error and resolves with
`undefined`, so the run is total and exposes no error to the caller. -/
def fetchWishlistRun (token : Option String) (s : WishlistState)
    (resp : Except Unit (List Product)) : WishlistState × List RemoteCall :=
  match token with
  | none => (emptyWishlist, [])
  | some _ => (fetchWishlistSettle s resp, [RemoteCall.getCall])

/-- A complete run of `addToWishlist(productId)`, as trace of events, final state
and returned promise value.  `ok` is the outcome of the awaited POST;
`refreshResp` is the outcome of the follow-up GET issued by the un-awaited
`fetchWishlist()` call.  Source order: guard on token; `await axios.post`;
on success `setWishlistIds(prev ∪ {productId})` then `fetchWishlist()` then
`return true`; on failure the `catch` returns `false` with no state change. -/
def addToWishlistRun (token : Option String) (s : WishlistState) (productId : Nat)
    (ok : Bool) (refreshResp : Except Unit (List Product)) :
    List ToggleEvent × WishlistState × Bool :=
  match token with
  | none => ([], s, false)
  | some _ =>
    if ok then
      let s1 : WishlistState := { s with wishlistIds := insert productId s.wishlistIds }
      let s2 := fetchWishlistSettle s1 refreshResp
      ([ToggleEvent.remote (RemoteCall.addCall productId), ToggleEvent.localCommit s1,
        ToggleEvent.remote RemoteCall.getCall] ++
        (match refreshResp with
         | .ok _ => [ToggleEvent.localCommit s2]
         | .error _ => []),
       s2, true)
    else
      ([ToggleEvent.remote (RemoteCall.addCall productId)], s, false)

/-- A complete run of `removeFromWishlist(productId)`.  Source order: guard on
token; `await axios.delete`; on success `setWishlistIds(prev \ {productId})` and
`setWishlist(prev.filter(p => p.id !== productId))` in one synchronous
continuation, then `return true`; on failure `false` with no state change. -/
def removeFromWishlistRun (token : Option String) (s : WishlistState)
    (productId : Nat) (ok : Bool) : List ToggleEvent × WishlistState × Bool :=
  match token with
  | none => ([], s, false)
  | some _ =>
    if ok then
      let s1 : WishlistState :=
        { wishlist := s.wishlist.filter (fun p => p.id != productId)
          wishlistIds := s.wishlistIds.erase productId }
      ([ToggleEvent.remote (RemoteCall.removeCall productId), ToggleEvent.localCommit s1],
       s1, true)
    else
      ([ToggleEvent.remote (RemoteCall.removeCall productId)], s, false)

/-- A complete run of `toggleWishlist(productId)`: branches on the current
`isInWishlist(productId)` and delegates to remove or add. -/
def toggleWishlistRun (token : Option String) (s : WishlistState) (productId : Nat)
    (ok : Bool) (refreshResp : Except Unit (List Product)) :
    List ToggleEvent × WishlistState × Bool :=
  if isInWishlist s productId then
    removeFromWishlistRun token s productId ok
  else
    addToWishlistRun token s productId ok refreshResp

/-- The WishlistState consistency invariant claimed by the spec:
the membership set equals the key set of the items list. -/
def wishlistInv (s : WishlistState) : Prop :=
  s.wishlistIds = (s.wishlist.map Product.id).toFinset

instance (s : WishlistState) : Decidable (wishlistInv s) := by
  unfold wishlistInv; infer_instance

/-- The network mutation call dispatched by one `toggleWishlist` invocation before
its first `await` (none when unauthenticated): the branch is chosen from the
membership snapshot current at dispatch time, and no local state is written before
the remote call settles. -/
def toggleDispatch (token : Option String) (s : WishlistState) (x : Nat) :
    Option RemoteCall :=
  match token with
  | none => none
  | some _ =>
    if isInWishlist s x then some (RemoteCall.removeCall x)
    else some (RemoteCall.addCall x)

/-- The local state committed when a dispatched mutation call settles
successfully (the POST/DELETE continuation; follow-up GETs excluded). -/
def mutationSettleSuccess (s : WishlistState) (c : Option RemoteCall) :
    WishlistState :=
  match c with
  | some (RemoteCall.addCall x) => { s with wishlistIds := insert x s.wishlistIds }
  | some (RemoteCall.removeCall x) =>
      { wishlist := s.wishlist.filter (fun p => p.id != x)
        wishlistIds := s.wishlistIds.erase x }
  | _ => s

/-- Two `toggleWishlist(x)` calls both issued before either remote call settles.
Each dispatch reads the membership snapshot current at its own dispatch time;
since the code commits no local state before a mutation settles, the second
dispatch reads the same state `s` as the first.  Both calls then settle
successfully in order.  Returns the mutation calls dispatched and the final state. -/
def doubleToggleRun (token : String) (s : WishlistState) (x : Nat) :
    List RemoteCall × WishlistState :=
  let c1 := toggleDispatch (some token) s x
  let c2 := toggleDispatch (some token) s x
  let s1 := mutationSettleSuccess s c1
  let s2 := mutationSettleSuccess s1 c2
  (c1.toList ++ c2.toList, s2)

end Wishlist

/-! ## Marketplace catalog view -/

namespace Marketplace

/-- The body of a successful `GET /products` response, as read by `fetchProducts`
(`response.data.products`, `response.data.pages`, `response.data.total`). -/
structure CatalogResp where
  products : List Product
  pages : Nat
  total : Nat
deriving DecidableEq, Repr

/-- The catalog-page `useState` cells of the Marketplace component. -/
structure MarketState where
  products : List Product
  loading : Bool
  totalPages : Nat
  total : Nat
deriving DecidableEq, Repr

/-- The success continuation of `fetchProducts`: the arriving response is
committed unconditionally (`setProducts`; `setTotalPages`; `setTotal`; the
`finally` clears `loading`).  No request token is consulted. -/
def commitResponse (s : MarketState) (r : CatalogResp) : MarketState :=
  { products := r.products, loading := false, totalPages := r.pages, total := r.total }

/-- One complete invocation of `fetchProducts`, given the outcome of its single
`axios.get`: returns the resulting state, the number of catalog requests issued
(always one: no retry), and the error value exposed to the caller's promise.
The `try`/`catch` swallows every failure (it only logs), so the promise always
resolves with no value: the exposed error is `none` in both branches. -/
def fetchProductsRun (s : MarketState) (resp : Except Unit CatalogResp) :
    MarketState × Nat × Option Unit :=
  match resp with
  | .ok r => (commitResponse s r, 1, none)
  | .error _ => ({ s with loading := false }, 1, none)

/-- Processing a sequence of catalog responses in their arrival order: each one is
committed by `commitResponse` as it arrives, with no staleness check. -/
def applyResponses (s : MarketState) (rs : List CatalogResp) : MarketState :=
  rs.foldl commitResponse s

/-- The filter `useState` cells of the Marketplace component.  `page` is a JS
number; it is modelled as an integer because `parseInt` can produce negatives. -/
structure FilterState where
  searchText : String
  category : String
  condition : String
  page : Int
deriving DecidableEq, Repr

/-- `handleSearch(value)`: `setSearch(value); setPage(1)` — one synchronous
event-handler, hence one committed transition. -/
def handleSearch (s : FilterState) (value : String) : FilterState :=
  { s with searchText := value, page := 1 }

/-- `handleCategoryChange(value)`: `setCategory(value); setPage(1)`. -/
def handleCategoryChange (s : FilterState) (value : String) : FilterState :=
  { s with category := value, page := 1 }

/-- `handleConditionChange(value)`:
`setCondition(value === 'all' ? '' : value); setPage(1)`. -/
def handleConditionChange (s : FilterState) (value : String) : FilterState :=
  { s with condition := if value = "all" then "" else value, page := 1 }

/-- `clearFilters()`: reset all three filters and the page in one handler. -/
def clearFilters (s : FilterState) : FilterState :=
  { searchText := "", category := "", condition := "", page := 1 }

end Marketplace

namespace Marketplace

/-- JS whitespace skipped by `parseInt` (the characters relevant to query tokens). -/
def jsWhitespace (c : Char) : Bool :=
  c == ' ' || c == '\t' || c == '\n' || c == '\r'

/-- Decimal digit characters accumulated into a number,
most significant first (`parseInt`'s digit loop). -/
def digitsToNat (cs : List Char) : Nat :=
  cs.foldl (fun a c => 10 * a + (c.toNat - 48)) 0

/-- Hexadecimal digit test used by `parseInt` after a `0x` prefix. -/
def isHexDigitChar (c : Char) : Bool :=
  c.isDigit || (decide ('a' ≤ c) && decide (c ≤ 'f')) ||
    (decide ('A' ≤ c) && decide (c ≤ 'F'))

/-- Value of one hexadecimal digit character. -/
def hexVal (c : Char) : Nat :=
  if c.isDigit then c.toNat - 48
  else if decide ('a' ≤ c) then c.toNat - 87
  else c.toNat - 55

/-- Hexadecimal digit characters accumulated into a number. -/
def hexDigitsToNat (cs : List Char) : Nat :=
  cs.foldl (fun a c => 16 * a + hexVal c) 0

/-- Whether the character list starts with a `0x`/`0X` radix prefix. -/
def isHexStart (cs : List Char) : Bool :=
  match cs with
  | c0 :: c1 :: _ => c0 == '0' && (c1 == 'x' || c1 == 'X')
  | _ => false

/-- The unsigned part of JS `parseInt` with unspecified radix: a `0x`/`0X`
prefix switches to base 16; otherwise the longest leading run of decimal digits
is taken; no digits yields NaN (`none`). -/
def parseUnsigned (cs : List Char) : Option Nat :=
  if isHexStart cs then
    let hs := (cs.drop 2).takeWhile isHexDigitChar
    if hs.isEmpty then none else some (hexDigitsToNat hs)
  else
    let ds := cs.takeWhile Char.isDigit
    if ds.isEmpty then none else some (digitsToNat ds)

/-- JS `parseInt(str)` (radix argument omitted): skip leading whitespace, read an
optional sign, then parse the unsigned part; `none` models NaN. -/
def jsParseInt (str : String) : Option Int :=
  let cs := str.toList.dropWhile jsWhitespace
  match cs with
  | [] => none
  | c :: rest =>
    if c == '-' then (parseUnsigned rest).map (fun n => -(n : Int))
    else if c == '+' then (parseUnsigned rest).map (fun n => (n : Int))
    else (parseUnsigned cs).map (fun n => (n : Int))

/-- JS `x || 1` applied to a `parseInt` result: NaN (`none`) and `0` are falsy
and fall back to `1`; any other number is returned as is. -/
def jsOrOne (o : Option Int) : Int :=
  match o with
  | none => 1
  | some n => if n = 0 then 1 else n

/-- `parseInt(searchParams.get('page')) || 1`: an absent token (`null`) makes
`parseInt` return NaN. -/
def decodePage (tok : Option String) : Int :=
  jsOrOne (tok.bind (fun t => jsParseInt t))

/-- JS `searchParams.get(k) || ''`: `null` and the empty string are falsy. -/
def jsOrStr (o : Option String) : String :=
  match o with
  | none => ""
  | some v => if v = "" then "" else v

/-- The query parameters relevant to the Marketplace view, each either present
with a string value or absent (`URLSearchParams.get` returning `null`). -/
structure UrlParams where
  search : Option String
  category : Option String
  condition : Option String
  page : Option String
deriving DecidableEq, Repr

/-- Decimal rendering of a natural number, most significant digit first
(JS `Number.prototype.toString` for integral values).  Structural recursion on a
fuel argument kept at least `n + 1` so that every digit is emitted. -/
def toDecimalAux : Nat → Nat → List Char → List Char
  | 0, _, acc => acc
  | fuel + 1, n, acc =>
    if n = 0 then acc
    else toDecimalAux fuel (n / 10) (Char.ofNat (48 + n % 10) :: acc)

/-- Decimal digit list of `n` (JS `n.toString()` for a nonnegative integral). -/
def natToDecimal (n : Nat) : List Char :=
  if n = 0 then ['0'] else toDecimalAux (n + 1) n []

/-- JS `page.toString()` where `page` is an integral JS number. -/
def intToDecimal (n : Int) : String :=
  if n < 0 then String.mk ('-' :: natToDecimal n.natAbs)
  else String.mk (natToDecimal n.toNat)

/-- The URL-sync effect of the Marketplace component: build a fresh
`URLSearchParams`, set `category`/`search`/`condition` only when non-empty and
`page` only when `page > 1`, and write it to the address bar. -/
def encodeFilters (s : FilterState) : UrlParams :=
  { search := if s.searchText = "" then none else some s.searchText
    category := if s.category = "" then none else some s.category
    condition := if s.condition = "" then none else some s.condition
    page := if 1 < s.page then some (intToDecimal s.page) else none }

/-- The mount-time initialisation of the filter `useState` cells from
`searchParams`: `get(k) || ''` for the three strings and
`parseInt(get('page')) || 1` for the page. -/
def decodeFilters (p : UrlParams) : FilterState :=
  { searchText := jsOrStr p.search
    category := jsOrStr p.category
    condition := jsOrStr p.condition
    page := decodePage p.page }

end Marketplace

namespace Marketplace

theorem toDecimalAux_zero (fuel : Nat) (acc : List Char) : toDecimalAux fuel 0 acc = acc := by
  cases fuel <;> simp [toDecimalAux]

theorem toDecimalAux_append (fuel : Nat) :
    ∀ n acc, toDecimalAux fuel n acc = toDecimalAux fuel n [] ++ acc := by
  induction fuel with
  | zero => intro n acc; simp [toDecimalAux]
  | succ f ih =>
    intro n acc
    by_cases h : n = 0
    · simp [toDecimalAux, h]
    · simp only [toDecimalAux, h, if_false]
      rw [ih (n / 10) (Char.ofNat (48 + n % 10) :: acc),
        ih (n / 10) [Char.ofNat (48 + n % 10)]]
      simp

theorem digitChar_toNat (d : Nat) (h : d < 10) : (Char.ofNat (48 + d)).toNat = 48 + d := by
  interval_cases d <;> decide

theorem digitChar_isDigit (d : Nat) (h : d < 10) : (Char.ofNat (48 + d)).isDigit = true := by
  interval_cases d <;> decide

theorem toDecimalAux_digits (fuel : Nat) :
    ∀ n acc, (∀ c ∈ acc, c.isDigit) → ∀ c ∈ toDecimalAux fuel n acc, c.isDigit = true := by
  induction fuel with
  | zero => intro n acc hacc; simpa [toDecimalAux] using hacc
  | succ f ih =>
    intro n acc hacc
    by_cases h : n = 0
    · simpa [toDecimalAux, h] using hacc
    · simp only [toDecimalAux, h, if_false]
      refine ih (n / 10) _ ?_
      intro c hc
      rcases List.mem_cons.mp hc with hc | hc
      · subst hc; exact digitChar_isDigit _ (Nat.mod_lt _ (by norm_num))
      · exact hacc c hc

theorem toDecimalAux_foldl (fuel : Nat) :
    ∀ n, 0 < n → n < fuel → ∀ a : Nat,
      List.foldl (fun a c => 10 * a + (c.toNat - 48)) a (toDecimalAux fuel n []) =
        a * 10 ^ (toDecimalAux fuel n []).length + n := by
  induction fuel with
  | zero => intro n h hf; omega
  | succ f ih =>
    intro n hn hf a
    have hn0 : n ≠ 0 := by omega
    have hstep : toDecimalAux (f + 1) n [] =
        toDecimalAux f (n / 10) [] ++ [Char.ofNat (48 + n % 10)] := by
      simp only [toDecimalAux, hn0, if_false]
      exact toDecimalAux_append f (n / 10) [Char.ofNat (48 + n % 10)]
    have hmod : (Char.ofNat (48 + n % 10)).toNat - 48 = n % 10 := by
      rw [digitChar_toNat _ (Nat.mod_lt _ (by norm_num))]; omega
    rw [hstep]
    by_cases h10 : n / 10 = 0
    · rw [h10, toDecimalAux_zero]
      simp [hmod]
      have : n % 10 = n := Nat.mod_eq_of_lt (by omega)
      omega
    · have hlt : n / 10 < n := Nat.div_lt_self hn (by norm_num)
      have hrec := ih (n / 10) (Nat.pos_of_ne_zero h10) (by omega) a
      rw [List.foldl_append, hrec]
      simp [List.length_append, hmod, pow_succ]
      have := Nat.div_add_mod n 10
      ring_nf
      omega

theorem digitsToNat_natToDecimal (n : Nat) : digitsToNat (natToDecimal n) = n := by
  by_cases h : n = 0
  · subst h; decide
  · unfold natToDecimal digitsToNat
    simp only [h, if_false]
    rw [toDecimalAux_foldl (n + 1) n (Nat.pos_of_ne_zero h) (by omega) 0]
    simp

theorem natToDecimal_digits (n : Nat) : ∀ c ∈ natToDecimal n, c.isDigit = true := by
  by_cases h : n = 0
  · subst h; intro c hc; simp [natToDecimal] at hc; subst hc; decide
  · unfold natToDecimal
    simp only [h, if_false]
    exact toDecimalAux_digits (n + 1) n [] (by intro c hc; simp at hc)

theorem natToDecimal_ne_nil (n : Nat) : natToDecimal n ≠ [] := by
  by_cases h : n = 0
  · subst h; decide
  · unfold natToDecimal
    simp only [h, if_false]
    have hstep : toDecimalAux (n + 1) n [] =
        toDecimalAux n (n / 10) [] ++ [Char.ofNat (48 + n % 10)] := by
      simp only [toDecimalAux, h, if_false]
      exact toDecimalAux_append n (n / 10) [Char.ofNat (48 + n % 10)]
    rw [hstep]
    simp

end Marketplace

namespace Marketplace

theorem isHexStart_of_digits (cs : List Char) (h : ∀ c ∈ cs, c.isDigit = true) :
    isHexStart cs = false := by
  match cs with
  | [] => rfl
  | [c] => rfl
  | c0 :: c1 :: rest =>
    have h1 : c1.isDigit = true := h c1 (by simp)
    have hx : (c1 == 'x') = false := by
      by_cases hc : c1 = 'x'
      · subst hc; exact absurd h1 (by decide)
      · exact beq_false_of_ne hc
    have hX : (c1 == 'X') = false := by
      by_cases hc : c1 = 'X'
      · subst hc; exact absurd h1 (by decide)
      · exact beq_false_of_ne hc
    simp [isHexStart, hx, hX]

theorem parseUnsigned_natToDecimal (n : Nat) : parseUnsigned (natToDecimal n) = some n := by
  have hd := natToDecimal_digits n
  unfold parseUnsigned
  rw [isHexStart_of_digits _ hd]
  simp only [if_false, Bool.false_eq_true]
  rw [List.takeWhile_eq_self_iff.mpr hd]
  have hne : (natToDecimal n).isEmpty = false := by
    rcases hl : natToDecimal n with _ | ⟨c, rest⟩
    · exact absurd hl (natToDecimal_ne_nil n)
    · rfl
  rw [hne]
  simp [digitsToNat_natToDecimal n]

theorem digit_not_special (c : Char) (h : c.isDigit = true) :
    jsWhitespace c = false ∧ (c == '-') = false ∧ (c == '+') = false := by
  refine ⟨?_, ?_, ?_⟩
  · by_cases h1 : c = ' '
    · subst h1; exact absurd h (by decide)
    by_cases h2 : c = '\t'
    · subst h2; exact absurd h (by decide)
    by_cases h3 : c = '\n'
    · subst h3; exact absurd h (by decide)
    by_cases h4 : c = '\r'
    · subst h4; exact absurd h (by decide)
    simp [jsWhitespace, beq_false_of_ne h1, beq_false_of_ne h2,
      beq_false_of_ne h3, beq_false_of_ne h4]
  · by_cases h1 : c = '-'
    · subst h1; exact absurd h (by decide)
    · exact beq_false_of_ne h1
  · by_cases h1 : c = '+'
    · subst h1; exact absurd h (by decide)
    · exact beq_false_of_ne h1

theorem jsParseInt_intToDecimal (n : Int) (h : 0 < n) : jsParseInt (intToDecimal n) = some n := by
  have hneg : ¬ n < 0 := by omega
  unfold intToDecimal
  simp only [hneg, if_false]
  unfold jsParseInt
  have htl : (String.mk (natToDecimal n.toNat)).toList = natToDecimal n.toNat := rfl
  rw [htl]
  obtain ⟨c, rest, hcr⟩ : ∃ c rest, natToDecimal n.toNat = c :: rest := by
    rcases hl : natToDecimal n.toNat with _ | ⟨c, rest⟩
    · exact absurd hl (natToDecimal_ne_nil _)
    · exact ⟨c, rest, rfl⟩
  have hcd : c.isDigit = true := by
    have := natToDecimal_digits n.toNat
    rw [hcr] at this
    exact this c (by simp)
  obtain ⟨hws, hminus, hplus⟩ := digit_not_special c hcd
  rw [hcr, List.dropWhile_cons_of_neg (by simp [hws])]
  simp only [hminus, hplus, Bool.false_eq_true, if_false]
  rw [← hcr, parseUnsigned_natToDecimal]
  simp
  omega

/-- C5: for every valid FilterState `s` (page ≥ 1), decoding the encoded query
parameters yields a state observationally equal to `s`: `page = 1` is omitted by
the encoder and an absent page token decodes to 1; the search, category and
condition tokens are emitted only when non-empty and decode back unchanged. -/
theorem C5_decode_encode_round_trip (s : FilterState) (h : 1 ≤ s.page) :
    decodeFilters (encodeFilters s) = s := by
  unfold decodeFilters encodeFilters
  have hsearch : jsOrStr (if s.searchText = "" then none else some s.searchText) = s.searchText := by
    by_cases hx : s.searchText = "" <;> simp [jsOrStr, hx]
  have hcat : jsOrStr (if s.category = "" then none else some s.category) = s.category := by
    by_cases hx : s.category = "" <;> simp [jsOrStr, hx]
  have hcond : jsOrStr (if s.condition = "" then none else some s.condition) = s.condition := by
    by_cases hx : s.condition = "" <;> simp [jsOrStr, hx]
  have hpage : decodePage (if 1 < s.page then some (intToDecimal s.page) else none) = s.page := by
    by_cases hx : 1 < s.page
    · simp only [hx, if_true]
      have hdp : decodePage (some (intToDecimal s.page)) =
          jsOrOne (jsParseInt (intToDecimal s.page)) := rfl
      rw [hdp, jsParseInt_intToDecimal s.page (by omega)]
      simp [jsOrOne]
      omega
    · have : s.page = 1 := by omega
      simp [hx, decodePage, jsOrOne, this]
  simp [hsearch, hcat, hcond, hpage]

end Marketplace

/-! ## Claims about the wishlist context -/

namespace Wishlist

/-- Whether the first event of an operation trace is a network-call dispatch. -/
def firstIsRemote (tr : List ToggleEvent) : Bool :=
  match tr.head? with
  | some e => e.isRemote
  | none => false

/-- Filtering a product list by id and taking the key set commutes with erasing
the id from the original key set. -/
theorem toFinset_map_filter_ne (l : List Product) (x : Nat) :
    ((l.filter (fun p => p.id != x)).map Product.id).toFinset =
      ((l.map Product.id).toFinset).erase x := by
  ext a
  simp only [List.mem_toFinset, List.mem_map, List.mem_filter, Finset.mem_erase,
    bne_iff_ne, ne_eq]
  constructor
  · rintro ⟨p, ⟨hp, hne⟩, rfl⟩
    exact ⟨hne, p, hp, rfl⟩
  · rintro ⟨hne, p, hp, rfl⟩
    exact ⟨p, ⟨hp, hne⟩, rfl⟩

/-- C2 counterexample: at a concrete input (authenticated, item 1 not yet a
member, remote add succeeding), the trace of `toggleWishlist(1)` commits no
local state before its first network dispatch — the prefix of the trace before
the first remote event is empty — contradicting the claim that the negated
membership state is applied to local WishlistState before the remote call is
issued. -/
theorem C2_counterexample_no_commit_before_dispatch :
    (toggleWishlistRun (some "tok") emptyWishlist 1 true
        (Except.ok [{ id := 1, name := "a" }])).1.takeWhile
      (fun e => !e.isRemote) = [] := by
  decide

/-- C2 (amended): `toggleWishlist` computes the intended state as the negation of
the current membership but dispatches the remote call first and applies the
local change only after remote success; on remote failure no local change was
made, so the state equals the exact pre-toggle state and the promise resolves to
`false`. -/
theorem C2_remote_dispatch_precedes_commit (t : String) (s : WishlistState)
    (x : Nat) (ok : Bool) (rr : Except Unit (List Product)) :
    firstIsRemote (toggleWishlistRun (some t) s x ok rr).1 = true ∧
    ((toggleWishlistRun (some t) s x false rr).2.1 = s ∧
      (toggleWishlistRun (some t) s x false rr).2.2 = false) ∧
    (x ∉ s.wishlistIds →
      (toggleWishlistRun (some t) s x true (Except.error ())).2.1 =
        { s with wishlistIds := insert x s.wishlistIds }) ∧
    (x ∈ s.wishlistIds →
      (toggleWishlistRun (some t) s x true rr).2.1 =
        { wishlist := s.wishlist.filter (fun p => p.id != x)
          wishlistIds := s.wishlistIds.erase x }) := by
  by_cases hm : x ∈ s.wishlistIds
  · have hmem : isInWishlist s x = true := by simp [isInWishlist, hm]
    refine ⟨?_, ⟨?_, ?_⟩, fun hc => absurd hm hc, fun _ => ?_⟩ <;>
      cases ok <;>
      simp [toggleWishlistRun, hmem, removeFromWishlistRun, firstIsRemote,
        ToggleEvent.isRemote]
  · have hmem : isInWishlist s x = false := by simp [isInWishlist, hm]
    refine ⟨?_, ⟨?_, ?_⟩, fun _ => ?_, fun hc => absurd hc hm⟩ <;>
      cases ok <;>
      simp [toggleWishlistRun, hmem, addToWishlistRun, firstIsRemote,
        ToggleEvent.isRemote, fetchWishlistSettle]

/-- C2 witness: the amended theorem applied at a concrete input (authenticated,
item 1 absent): the failed toggle leaves the empty state unchanged and returns
`false`, and the successful toggle with failed refresh commits the insertion. -/
theorem C2_remote_dispatch_precedes_commit_witness :
    (toggleWishlistRun (some "tok") emptyWishlist 1 true (Except.error ())).2.1 =
      { emptyWishlist with wishlistIds := insert 1 emptyWishlist.wishlistIds } :=
  (C2_remote_dispatch_precedes_commit "tok" emptyWishlist 1 true
    (Except.error ())).2.2.1 (by decide)

end Wishlist

namespace Wishlist

/-- C3 counterexample: starting from the empty authenticated state, a
`toggleWishlist(1)` whose remote add succeeds but whose follow-up refresh GET
fails leaves a fully settled state (every issued call has settled) in which
`wishlistIds = {1}` while `wishlist = []`, so the membership set differs from
the key set of the items list at an externally observable point after
settlement — contradicting the claim that the invariant is restored on
settlement of the mutation. -/
theorem C3_counterexample_settled_divergence :
    ¬ wishlistInv
      (toggleWishlistRun (some "tok") emptyWishlist 1 true (Except.error ())).2.1 := by
  decide

/-- C3 (amended): `membership == keys(items)` is established by every successful
refresh commit, preserved by a successful remove, and restored after a
successful add once its follow-up refresh commits; but a successful add commits
the membership insertion alone, and if the follow-up refresh fails the
divergence for the added item persists at settled observable points. -/
theorem C3_invariant_modulo_refresh_lag (s : WishlistState) (L : List Product)
    (t : String) (x : Nat) :
    wishlistInv (fetchWishlistSettle s (Except.ok L)) ∧
    (wishlistInv s → wishlistInv (removeFromWishlistRun (some t) s x true).2.1) ∧
    wishlistInv (addToWishlistRun (some t) s x true (Except.ok L)).2.1 ∧
    (wishlistInv s → x ∉ s.wishlistIds →
      ¬ wishlistInv (addToWishlistRun (some t) s x true (Except.error ())).2.1) := by
  refine ⟨?_, ?_, ?_, ?_⟩
  · simp [fetchWishlistSettle, wishlistInv]
  · intro hinv
    simp only [removeFromWishlistRun, if_true, wishlistInv] at hinv ⊢
    rw [toFinset_map_filter_ne, hinv]
  · simp [addToWishlistRun, fetchWishlistSettle, wishlistInv]
  · intro hinv hx hcontra
    simp only [addToWishlistRun, if_true, fetchWishlistSettle, wishlistInv] at hcontra
    rw [wishlistInv] at hinv
    rw [← hinv] at hcontra
    exact hx (hcontra ▸ Finset.mem_insert_self x s.wishlistIds)

/-- C3 witness: the amended theorem applied at a concrete state satisfying the
invariant: removing item 1 preserves the invariant, and a successful add of
item 2 with a failed refresh breaks it. -/
theorem C3_invariant_modulo_refresh_lag_witness :
    wishlistInv
      (removeFromWishlistRun (some "tok")
        { wishlist := [{ id := 1, name := "a" }], wishlistIds := {1} } 1 true).2.1 ∧
    ¬ wishlistInv
      (addToWishlistRun (some "tok")
        { wishlist := [{ id := 1, name := "a" }], wishlistIds := {1} } 2 true
        (Except.error ())).2.1 :=
  ⟨(C3_invariant_modulo_refresh_lag
      { wishlist := [{ id := 1, name := "a" }], wishlistIds := {1} } [] "tok" 1).2.1
      (by decide),
   (C3_invariant_modulo_refresh_lag
      { wishlist := [{ id := 1, name := "a" }], wishlistIds := {1} } [] "tok" 2).2.2.2
      (by decide) (by decide)⟩

/-- C4 counterexample: with item 1 absent from the empty authenticated state, two
`toggleWishlist(1)` calls both issued before either settles dispatch two network
mutation calls (two adds), not exactly one, and after both settle item 1 is a
member — whereas the claimed last-toggle-wins coalescing would issue one call
and leave the final membership at the second toggle's target (absent). -/
theorem C4_counterexample_two_mutation_calls :
    (doubleToggleRun "tok" emptyWishlist 1).1.length = 2 ∧
    1 ∈ (doubleToggleRun "tok" emptyWishlist 1).2.wishlistIds := by
  decide

/-- C4 (amended): a second `toggleWishlist(x)` issued while the first mutation is
still in flight is dispatched immediately against the unchanged membership
snapshot, so two rapid toggles dispatch two identical mutation calls (two adds
when `x` is initially absent, two removes when present), and after both settle
successfully the membership equals the first toggle's target, not the
last-toggle-wins outcome. -/
theorem C4_double_toggle_duplicate_calls (t : String) (s : WishlistState) (x : Nat) :
    (x ∉ s.wishlistIds →
      (doubleToggleRun t s x).1 = [RemoteCall.addCall x, RemoteCall.addCall x] ∧
      x ∈ (doubleToggleRun t s x).2.wishlistIds) ∧
    (x ∈ s.wishlistIds →
      (doubleToggleRun t s x).1 = [RemoteCall.removeCall x, RemoteCall.removeCall x] ∧
      x ∉ (doubleToggleRun t s x).2.wishlistIds) := by
  by_cases hm : x ∈ s.wishlistIds
  · have hmem : isInWishlist s x = true := by simp [isInWishlist, hm]
    refine ⟨fun hc => absurd hm hc, fun _ => ?_⟩
    simp [doubleToggleRun, toggleDispatch, hmem, mutationSettleSuccess]
  · have hmem : isInWishlist s x = false := by simp [isInWishlist, hm]
    refine ⟨fun _ => ?_, fun hc => absurd hc hm⟩
    simp [doubleToggleRun, toggleDispatch, hmem, mutationSettleSuccess]

/-- C4 witness: the amended theorem applied at the empty authenticated state with
item 1 absent. -/
theorem C4_double_toggle_duplicate_calls_witness :
    (doubleToggleRun "tok" emptyWishlist 1).1 =
      [RemoteCall.addCall 1, RemoteCall.addCall 1] ∧
    1 ∈ (doubleToggleRun "tok" emptyWishlist 1).2.wishlistIds :=
  (C4_double_toggle_duplicate_calls "tok" emptyWishlist 1).1 (by decide)

/-- C8: with no credential, `fetchWishlist` empties both cells and issues no
network call, `isInWishlist` is false for every id on the resulting state, and
`toggleWishlist` issues no event (in particular no remote call), leaves the
state unchanged and resolves to `false`. -/
theorem C8_unauthenticated_inert (s s2 : WishlistState)
    (r : Except Unit (List Product)) (x y : Nat) (ok : Bool)
    (rr : Except Unit (List Product)) :
    fetchWishlistRun none s r = (emptyWishlist, []) ∧
    isInWishlist emptyWishlist y = false ∧
    toggleWishlistRun none s2 x ok rr = ([], s2, false) := by
  refine ⟨rfl, by simp [isInWishlist, emptyWishlist], ?_⟩
  by_cases hm : isInWishlist s2 x <;>
    simp [toggleWishlistRun, hm, addToWishlistRun, removeFromWishlistRun]

/-- C10: with a credential present, a failed refresh GET leaves both `wishlist`
and `wishlistIds` exactly as they were (the `catch` only logs, so the run is
total and no failure reaches the caller), while a successful refresh replaces
both wholesale from the response. -/
theorem C10_refresh_error_preserves_state (t : String) (s : WishlistState)
    (e : Unit) (L : List Product) :
    (fetchWishlistRun (some t) s (Except.error e)).1 = s ∧
    (fetchWishlistRun (some t) s (Except.ok L)).1 =
      { wishlist := L, wishlistIds := (L.map Product.id).toFinset } := by
  exact ⟨rfl, rfl⟩

end Wishlist

/-! ## Claims about the catalog view and the URL codec -/

namespace Marketplace

/-- C1 counterexample: fetch A initiated before fetch B, B's response arriving
first: processing B's response and then A's later-arriving one commits A's
products, not B's — `fetchProducts` performs no token comparison, so the
later-arriving superseded result overwrites the newer one instead of being
discarded. -/
theorem C1_counterexample_stale_overwrite :
    (applyResponses { products := [], loading := true, totalPages := 1, total := 0 }
      [{ products := [{ id := 2, name := "b" }], pages := 1, total := 1 },
       { products := [{ id := 3, name := "a" }], pages := 4, total := 40 }]).products =
      [{ id := 3, name := "a" }] ∧
    ([{ id := 3, name := "a" }] : List Product) ≠ [{ id := 2, name := "b" }] := by
  decide

/-- C1 (amended): `fetchProducts` tags fetches with no token and performs no
staleness check; every arriving response is committed unconditionally, so after
any sequence of responses is processed in arrival order, the committed products,
totalPages and total are those of the last response to arrive — when fetch B's
response arrives before fetch A's, A's stale result wins. -/
theorem C1_last_arrival_wins (s : MarketState) (earlier : List CatalogResp)
    (last : CatalogResp) :
    (applyResponses s (earlier ++ [last])).products = last.products ∧
    (applyResponses s (earlier ++ [last])).totalPages = last.pages ∧
    (applyResponses s (earlier ++ [last])).total = last.total := by
  unfold applyResponses
  rw [List.foldl_append]
  exact ⟨rfl, rfl, rfl⟩

/-- C5 witness: the round-trip theorem applied at the concrete valid state
(search "laptop", category "Books", condition "New", page 3). -/
theorem C5_decode_encode_round_trip_witness :
    decodeFilters (encodeFilters
      { searchText := "laptop", category := "Books", condition := "New", page := 3 }) =
      { searchText := "laptop", category := "Books", condition := "New", page := 3 } :=
  C5_decode_encode_round_trip
    { searchText := "laptop", category := "Books", condition := "New", page := 3 }
    (by decide)

/-- C6: each filter mutation handler — `handleSearch`, `handleCategoryChange`,
`handleConditionChange`, `clearFilters` — produces, as one transition, a state
whose `page` is 1 and whose mutated filter field carries the new value; the
filter change and the page reset are never two separately observable states
because the two `setState` calls sit in one synchronous event handler. -/
theorem C6_filter_mutation_resets_page (s : FilterState) (v : String) :
    (handleSearch s v).page = 1 ∧ (handleSearch s v).searchText = v ∧
    (handleCategoryChange s v).page = 1 ∧ (handleCategoryChange s v).category = v ∧
    (handleConditionChange s v).page = 1 ∧
    (clearFilters s).page = 1 := by
  exact ⟨rfl, rfl, rfl, rfl, rfl, rfl⟩

/-- C7 counterexample: the page token `"-3"` parses to the truthy number `-3`,
so `parseInt(get('page')) || 1` yields page `-3`, not page 1 — a
negative-number token does not decode to 1 and breaks the `page ≥ 1`
invariant. -/
theorem C7_counterexample_negative_token :
    decodePage (some "-3") = -3 ∧ ¬ (1 ≤ decodePage (some "-3")) := by
  decide

/-- C7 (amended): an absent page token, a token `parseInt` cannot parse, and any
token parsing to 0 decode to page 1; but a token parsing to any nonzero integer
decodes to that integer, so negative tokens yield negative pages and the
invariant `page ≥ 1` is not enforced by decoding. -/
theorem C7_page_token_defaults :
    decodePage none = 1 ∧
    (∀ t, jsParseInt t = none → decodePage (some t) = 1) ∧
    (∀ t, jsParseInt t = some 0 → decodePage (some t) = 1) ∧
    (∀ t n, jsParseInt t = some n → n ≠ 0 → decodePage (some t) = n) := by
  refine ⟨rfl, ?_, ?_, ?_⟩
  · intro t ht; simp [decodePage, ht, jsOrOne]
  · intro t ht; simp [decodePage, ht, jsOrOne]
  · intro t n ht hn; simp [decodePage, ht, jsOrOne, hn]

/-- C7 witness: the amended theorem applied to the concrete tokens `"abc"`
(unparseable), `"0"` (parses to falsy 0) and `"17"` (parses to 17). -/
theorem C7_page_token_defaults_witness :
    decodePage (some "abc") = 1 ∧ decodePage (some "0") = 1 ∧
    decodePage (some "17") = 17 :=
  ⟨C7_page_token_defaults.2.1 "abc" (by decide),
   C7_page_token_defaults.2.2.1 "0" (by decide),
   C7_page_token_defaults.2.2.2 "17" 17 (by decide) (by decide)⟩

/-- C9 counterexample: at a concrete state with a previously rendered page, a
failed fetch leaves the rendered products in place but exposes no error value to
the caller — the `catch` only writes to the console and the promise resolves
with nothing, so no retryable error is surfaced, contradicting that conjunct of
the claim. -/
theorem C9_counterexample_no_error_surfaced :
    (fetchProductsRun
      { products := [{ id := 1, name := "a" }], loading := true, totalPages := 2,
        total := 13 } (Except.error ())).2.2 = none ∧
    (fetchProductsRun
      { products := [{ id := 1, name := "a" }], loading := true, totalPages := 2,
        total := 13 } (Except.error ())).1.products = [{ id := 1, name := "a" }] := by
  decide

/-- C9 (amended): a failed catalog fetch leaves the previously rendered
products, totalPages and total unchanged, issues exactly one request (no
automatic retry), but surfaces no error to the caller: the failure is only
logged and the promise resolves with no error value. -/
theorem C9_failure_keeps_page_no_retry_no_error (s : MarketState) (e : Unit) :
    (fetchProductsRun s (Except.error e)).1.products = s.products ∧
    (fetchProductsRun s (Except.error e)).1.totalPages = s.totalPages ∧
    (fetchProductsRun s (Except.error e)).1.total = s.total ∧
    (fetchProductsRun s (Except.error e)).2.1 = 1 ∧
    (fetchProductsRun s (Except.error e)).2.2 = none := by
  exact ⟨rfl, rfl, rfl, rfl, rfl⟩

end Marketplace
